import Mathlib

/-!
Verification development for the quiz-attempt server
(session lifecycle controller, grading service, expiry cron job).

The JavaScript source is shallowly embedded: JS runtime values are the
inductive `JVal`, numbers are exact rationals `ℚ` (all quantities the
claims touch are small integers or exact ratios), stateful MongoDB
operations become explicit state passing over a `Session` record, and the
conditional `findOneAndUpdate` writes are modelled by passing the
store state at write time separately from the state observed at read
time, so that interleavings with concurrent writers are expressible.
-/

namespace QuizServer

/-- Model of a JavaScript runtime value as stored in `Mixed` fields and
request payloads: a (finite) number, a string, a boolean, `null` or
`undefined`. -/
inductive JVal where
  | num (q : ℚ)
  | str (s : String)
  | bool (b : Bool)
  | null
  | undefinedV
deriving DecidableEq, Repr

/-- JS truthiness of a modelled value (`0`, `""`, `false`, `null`,
`undefined` are falsy). -/
def jsTruthy : JVal → Bool
  | .num q => q != 0
  | .str s => s ≠ ""
  | .bool b => b
  | .null => false
  | .undefinedV => false

/-- Decimal rendering of a rational, used by `jsToString` for integral
numbers.  (JS renders non-integral numbers in decimal notation; no code
path exercised by the claims stringifies a non-integral number, so those
are rendered with an explicit fraction marker.) -/
def ratToJsString (q : ℚ) : String :=
  if q.den = 1 then
    (if q.num < 0 then "-" ++ toString q.num.natAbs else toString q.num.natAbs)
  else
    toString q.num ++ "/" ++ toString q.den

/-- The JS `String(...)` coercion on modelled values. -/
def jsToString : JVal → String
  | .num q => ratToJsString q
  | .str s => s
  | .bool b => if b then "true" else "false"
  | .null => "null"
  | .undefinedV => "undefined"

/-- `String(v || "")`: stringify a value after replacing a falsy value by
the empty string (the `question.answer_text || ""` idiom). -/
def jsStrOrEmpty (v : JVal) : String :=
  if jsTruthy v then jsToString v else ""

/-- `s.trim()`: strip leading and trailing whitespace. -/
def jsTrim (s : String) : String :=
  String.mk (((s.toList.dropWhile Char.isWhitespace).reverse.dropWhile Char.isWhitespace).reverse)

/-- `s.toLowerCase()` (ASCII, which covers the modelled inputs). -/
def jsToLower (s : String) : String :=
  String.mk (s.toList.map Char.toLower)

/-- One step of `replace(/\s+/g, " ")`: copy characters, emitting a single
space for every maximal whitespace run.  The boolean records whether the
previous character was part of a whitespace run. -/
def collapseWsGo : List Char → Bool → List Char
  | [], _ => []
  | c :: cs, prev =>
    if c.isWhitespace then
      (if prev then collapseWsGo cs true else ' ' :: collapseWsGo cs true)
    else
      c :: collapseWsGo cs false

/-- `replace(/\s+/g, " ")` on a string. -/
def collapseWs (s : String) : String :=
  String.mk (collapseWsGo s.toList false)

/-- Worker for `split(/\s+/)`: JS semantics, so a leading separator run
produces a leading empty field and a trailing run a trailing empty
field. -/
def splitWsGo : List Char → List Char → Bool → List String
  | [], cur, _ => [String.mk cur.reverse]
  | c :: cs, cur, inWs =>
    if c.isWhitespace then
      (if inWs then splitWsGo cs cur true
       else String.mk cur.reverse :: splitWsGo cs [] true)
    else
      splitWsGo cs (c :: cur) false

/-- `s.split(/\s+/)` with JS semantics (`"".split` gives `[""]`,
`" a".split` gives `["", "a"]`). -/
def jsSplitWs (s : String) : List String :=
  splitWsGo s.toList [] false

/-- Digits of a numeral read as a natural number. -/
def digitsToNat (ds : List Char) : ℕ :=
  ds.foldl (fun a c => a * 10 + (c.toNat - '0'.toNat)) 0

/-- Exponent digits of a numeral: the multiplier `10 ^ e`. -/
def parseExpDigits (ds : List Char) : Option ℚ :=
  if ds ≠ [] ∧ ds.all Char.isDigit then some ((10 : ℚ) ^ digitsToNat ds) else none

/-- Signed exponent part after `e`/`E`. -/
def parseSignedExp : List Char → Option ℚ
  | '+' :: ds => parseExpDigits ds
  | '-' :: ds => (parseExpDigits ds).map (fun m => m⁻¹)
  | ds => parseExpDigits ds

/-- Optional exponent suffix of a numeral; empty input means no exponent
(multiplier 1), anything else must be a full `e±ddd` suffix. -/
def parseExpPart : List Char → Option ℚ
  | [] => some 1
  | 'e' :: rest => parseSignedExp rest
  | 'E' :: rest => parseSignedExp rest
  | _ => none

/-- Unsigned decimal numeral `ddd`, `ddd.ddd`, `.ddd`, `ddd.` with an
optional exponent; the whole input must be consumed. -/
def parseUnsigned (cs : List Char) : Option ℚ :=
  let ip := cs.takeWhile Char.isDigit
  let r1 := cs.drop ip.length
  match r1 with
  | '.' :: r2 =>
    let fp := r2.takeWhile Char.isDigit
    let r3 := r2.drop fp.length
    if ip.isEmpty ∧ fp.isEmpty then none
    else (parseExpPart r3).map (fun e =>
      ((digitsToNat ip : ℚ) + (digitsToNat fp : ℚ) / (10 : ℚ) ^ fp.length) * e)
  | _ =>
    if ip.isEmpty then none
    else (parseExpPart r1).map (fun e => (digitsToNat ip : ℚ) * e)

/-- The JS `Number(...)` coercion on a string, restricted to decimal
notation (the input space the grading code feeds it); `none` stands for
`NaN`.  A whitespace-only string coerces to `0`. -/
def jsStringToNumber (s : String) : Option ℚ :=
  let t := jsTrim s
  if t = "" then some 0
  else
    match t.toList with
    | '+' :: rest => parseUnsigned rest
    | '-' :: rest => (parseUnsigned rest).map Neg.neg
    | cs => parseUnsigned cs

/-- The JS `Number(...)` coercion on a modelled value (`none` = `NaN`). -/
def toNumber : JVal → Option ℚ
  | .num q => some q
  | .str s => jsStringToNumber s
  | .bool b => some (if b then 1 else 0)
  | .null => some 0
  | .undefinedV => none

/-! ### Grading service (`server/services/grading.js`) -/

/-- Body of `normalizeText` on a string: trim, lowercase, map curly
quotes to an apostrophe, drop every character that is not `\w`, `\s`,
apostrophe or hyphen, and collapse whitespace runs to a single space. -/
def normalizeTextStr (s : String) : String :=
  let cs := (jsToLower (jsTrim s)).toList
  let cs := cs.map (fun c => if c = '“' ∨ c = '”' ∨ c = '‘' ∨ c = '’' then '\'' else c)
  let cs := cs.filter (fun c => c.isAlphanum ∨ c = '_' ∨ c.isWhitespace ∨ c = '\'' ∨ c = '-')
  collapseWs (String.mk cs)

/-- `normalizeText(s)`: `null`/`undefined` become `""`, other values are
stringified and normalized. -/
def normalizeText : JVal → String
  | .null => ""
  | .undefinedV => ""
  | v => normalizeTextStr (jsToString v)

/-- `sanitizeUserShortAnswer(raw)`: first whitespace-delimited token of
the trimmed string, lowercased (empty when there is none). -/
def sanitizeUserShortAnswer : JVal → String
  | .null => ""
  | .undefinedV => ""
  | v =>
    let s := jsTrim (jsToString v)
    match (jsSplitWs s).filter (fun p => p ≠ "") with
    | [] => ""
    | p :: _ => jsToLower p

/-- Worker for `levenshtein`, structurally recursive on a fuel
parameter so that it evaluates inside the kernel; each recursive call
strictly shrinks `s.length + t.length`, so with fuel
`s.length + t.length` the zero-fuel arm is never reached. -/
def levGo : ℕ → List Char → List Char → ℕ
  | _, [], t => t.length
  | _, s, [] => s.length
  | 0, s, t => s.length + t.length
  | fuel + 1, a :: s, b :: t =>
    let cost : ℕ := if a = b then 0 else 1
    Nat.min (levGo fuel s (b :: t) + 1)
      (Nat.min (levGo fuel (a :: s) t + 1) (levGo fuel s t + cost))

/-- `levenshtein(a, b)`: classic single-character
insertion/deletion/substitution edit distance.  The source fills a DP
table with `dp[i][j] = min(del, ins, sub)`; this is the same function
written as the defining recurrence. -/
def levenshtein (s t : List Char) : ℕ := levGo (s.length + t.length) s t

/-- `similarity(a, b) = 1 - distance / maxLen` (1 when both strings are
empty). -/
def similarity (a b : String) : ℚ :=
  let maxLen := max a.length b.length
  if maxLen = 0 then 1
  else 1 - (levenshtein a.toList b.toList : ℚ) / (maxLen : ℚ)

/-- The `small` word table of `wordToNumber` (`zero` .. `nineteen`). -/
def smallWord (w : String) : Option ℚ :=
  if w = "zero" then some 0
  else if w = "one" then some 1
  else if w = "two" then some 2
  else if w = "three" then some 3
  else if w = "four" then some 4
  else if w = "five" then some 5
  else if w = "six" then some 6
  else if w = "seven" then some 7
  else if w = "eight" then some 8
  else if w = "nine" then some 9
  else if w = "ten" then some 10
  else if w = "eleven" then some 11
  else if w = "twelve" then some 12
  else if w = "thirteen" then some 13
  else if w = "fourteen" then some 14
  else if w = "fifteen" then some 15
  else if w = "sixteen" then some 16
  else if w = "seventeen" then some 17
  else if w = "eighteen" then some 18
  else if w = "nineteen" then some 19
  else none

/-- The `tens` word table of `wordToNumber` (`twenty` .. `ninety`). -/
def tensWord (w : String) : Option ℚ :=
  if w = "twenty" then some 20
  else if w = "thirty" then some 30
  else if w = "forty" then some 40
  else if w = "fifty" then some 50
  else if w = "sixty" then some 60
  else if w = "seventy" then some 70
  else if w = "eighty" then some 80
  else if w = "ninety" then some 90
  else none

/-- The token loop of `wordToNumber`, threading the `total` and
`current` accumulators; an unrecognized token aborts with `none`
(`null`), never with a partial value. -/
def wordToNumberGo : List String → ℚ → ℚ → Option ℚ
  | [], total, current => some (total + current)
  | w :: ws, total, current =>
    match smallWord w with
    | some v => wordToNumberGo ws total (current + v)
    | none =>
      match tensWord w with
      | some v => wordToNumberGo ws total (current + v)
      | none =>
        if w = "hundred" then
          wordToNumberGo ws total ((if current = 0 then 1 else current) * 100)
        else if w = "thousand" then
          wordToNumberGo ws (total + (if current = 0 then 1 else current) * 1000) 0
        else
          match jsStringToNumber w with
          | some v => wordToNumberGo ws total (current + v)
          | none => none

/-- Replace `-` and `,` by a space (the `replace(/[-,]/g, " ")` step of
`wordToNumber`). -/
def dashCommaToSpace (s : String) : String :=
  String.mk (s.toList.map (fun c => if c = '-' ∨ c = ',' then ' ' else c))

/-- `wordToNumber(text)`: parse composable English number words (and
bare numeric tokens) into a rational; non-strings and unparsable inputs
give `none` (`null`). -/
def wordToNumber : JVal → Option ℚ
  | .str s =>
    let t := dashCommaToSpace (jsTrim (jsToLower s))
    match (jsSplitWs t).filter (fun p => p ≠ "") with
    | [] => none
    | tokens => wordToNumberGo tokens 0 0
  | _ => none

/-- `parseMaybeNumber(s)`: direct `Number(...)` parse first, then
`wordToNumber`; `none` when neither succeeds. -/
def parseMaybeNumber : JVal → Option ℚ
  | .null => none
  | .undefinedV => none
  | v =>
    let str := jsToLower (jsTrim (jsToString v))
    if str = "" then none
    else
      match jsStringToNumber str with
      | some n => some n
      | none => wordToNumber (.str str)

/-- A question as snapshotted into a session (and as stored on a quiz):
string fields default to `""` for absent JS fields, answer fields keep
their JS value. -/
structure Question where
  qid : String := ""
  id : String := ""
  type : String := ""
  difficulty : String := ""
  question : String := ""
  choices : List String := []
  answer_index : JVal := .undefinedV
  answer_text : JVal := .undefinedV
  explanation : String := ""
deriving DecidableEq, Repr

/-- Result of grading one question; `similarity` and `numericMatch` are
only populated by the strategies that produce them. -/
structure GradeResult where
  isCorrect : Bool
  expected : JVal
  similarity : Option ℚ := none
  numericMatch : Bool := false
deriving DecidableEq, Repr

/-- `(question.choices && question.choices[idx]) || null`: index the
choices by a JS number (an out-of-range, fractional or `NaN` index gives
`undefined`), then coerce a falsy result to `null`. -/
def choiceAt (choices : List String) (idx : Option ℚ) : JVal :=
  match idx with
  | none => .null
  | some q =>
    if q.den = 1 ∧ 0 ≤ q.num then
      match choices.get? q.num.toNat with
      | some c => if c ≠ "" then .str c else .null
      | none => .null
    else .null

/-- The `mcq` branch of `gradeQuestion`: numeric user answer compared
with `Number(answer_index)`; `NaN` on either side is never equal. -/
def gradeMcq (q : Question) (userAnswer : JVal) : GradeResult :=
  let expectedIndex := toNumber q.answer_index
  let isCorrect :=
    match toNumber userAnswer, expectedIndex with
    | some a, some b => decide (a = b)
    | _, _ => false
  { isCorrect := isCorrect, expected := choiceAt q.choices expectedIndex }

/-- Truthy equivalence class used by the `tf` grader. -/
def truthyWords : List String := ["true", "t", "1", "yes", "y"]

/-- Falsy equivalence class used by the `tf` grader. -/
def falsyWords : List String := ["false", "f", "0", "no", "n"]

/-- The `tf` branch of `gradeQuestion`: both sides are normalized; if
both map into the truthy/falsy classes the booleans are compared,
otherwise the normalized strings are compared. -/
def gradeTf (q : Question) (userAnswer : JVal) : GradeResult :=
  let expNormalized := normalizeTextStr (jsStrOrEmpty q.answer_text)
  let ua := normalizeText userAnswer
  let expBool : Option Bool :=
    if truthyWords.contains expNormalized then some true
    else if falsyWords.contains expNormalized then some false
    else none
  let uaBool : Option Bool :=
    if truthyWords.contains ua then some true
    else if falsyWords.contains ua then some false
    else none
  let isCorrect :=
    match expBool, uaBool with
    | some e, some u => decide (e = u)
    | _, _ => decide (expNormalized = ua)
  { isCorrect := isCorrect, expected := q.answer_text }

/-- The expected-side sanitization of the `short` grader:
`normalizeText(expectedRaw).split(/\s+/)[0] || ""`. -/
def shortExpectedToken (expectedRaw : String) : String :=
  match jsSplitWs (normalizeTextStr expectedRaw) with
  | [] => ""
  | p :: _ => if p ≠ "" then p else ""

/-- The `short` branch of `gradeQuestion`: exact token match, then
numeric equivalence with tolerance `1e-9`, then edit-distance similarity
against the `0.8` threshold. -/
def gradeShort (q : Question) (userAnswer : JVal) : GradeResult :=
  let expectedRaw := jsStrOrEmpty q.answer_text
  let expectedSanitized := shortExpectedToken expectedRaw
  let uaSanitized := sanitizeUserShortAnswer userAnswer
  if expectedSanitized ≠ "" ∧ uaSanitized = expectedSanitized then
    { isCorrect := true, expected := q.answer_text }
  else
    let expNum := parseMaybeNumber (.str expectedRaw)
    let uaNum := parseMaybeNumber (.str uaSanitized)
    let numericHit :=
      match expNum, uaNum with
      | some e, some u => decide (|e - u| < (1 : ℚ) / 1000000000)
      | _, _ => false
    if numericHit then
      { isCorrect := true, expected := q.answer_text, numericMatch := true }
    else
      let sim := similarity expectedSanitized uaSanitized
      { isCorrect := decide (sim ≥ 4 / 5), expected := q.answer_text, similarity := some sim }

/-- `gradeQuestion(question, userAnswer)`: dispatch on the question
type; anything that is neither `mcq` nor `tf` falls through to the
short-answer strategies, as in the source. -/
def gradeQuestion (q : Question) (userAnswer : JVal) : GradeResult :=
  if q.type = "mcq" then gradeMcq q userAnswer
  else if q.type = "tf" then gradeTf q userAnswer
  else gradeShort q userAnswer

/-- The `answers` argument of `gradeAll`: an object keyed by qid or an
array aligned with the questions. -/
inductive GAnswers where
  | byMap (m : List (String × JVal))
  | byArr (l : List JVal)
deriving DecidableEq, Repr

/-- First-occurrence lookup in an association list (JS objects are
modelled as association lists whose insertion keeps keys unique, so the
first match is the binding). -/
def objLookup : List (String × α) → String → Option α
  | [], _ => none
  | (k, v) :: rest, key => if k = key then some v else objLookup rest key

/-- JS object assignment `m[k] = v`: overwrite the binding in place when
the key exists, append it otherwise. -/
def objInsert : List (String × α) → String → α → List (String × α)
  | [], k, v => [(k, v)]
  | (k0, v0) :: rest, k, v =>
    if k0 = k then (k0, v) :: rest else (k0, v0) :: objInsert rest k v

/-- Per-question detail produced by `gradeAll`. -/
structure Detail where
  qid : String
  isCorrect : Bool
  expected : JVal
  similarity : Option ℚ
  numericMatch : Bool
  userAnswer : JVal
  question : String
  explanation : JVal
deriving DecidableEq, Repr

/-- The qid used by `gradeAll` for the question at `idx`:
`q.qid || q.id || "q<idx+1>"`. -/
def effQid (q : Question) (idx : ℕ) : String :=
  if q.qid ≠ "" then q.qid
  else if q.id ≠ "" then q.id
  else "q" ++ toString (idx + 1)

/-- The user answer `gradeAll` feeds the grader for the question at
`idx` (a missing binding or index is `undefined`). -/
def lookupAnswer (answers : GAnswers) (idx : ℕ) (qid : String) : JVal :=
  match answers with
  | .byMap m => (objLookup m qid).getD .undefinedV
  | .byArr l => l.getD idx .undefinedV

/-- Result of `gradeAll`. -/
structure GradeAllResult where
  totalCorrect : ℕ
  details : List Detail
deriving DecidableEq, Repr

/-- The detail entry `gradeAll` pushes for one question. -/
def detailFor (q : Question) (idx : ℕ) (answers : GAnswers) : Detail :=
  let qid := effQid q idx
  let userAnswer := lookupAnswer answers idx qid
  let result := gradeQuestion q userAnswer
  { qid := qid
    isCorrect := result.isCorrect
    expected := result.expected
    similarity := result.similarity
    numericMatch := result.numericMatch
    userAnswer := if userAnswer = .undefinedV then .null else userAnswer
    question := q.question
    explanation := if q.explanation ≠ "" then .str q.explanation else .null }

/-- `gradeAll(questions, answers)`: iterate the question snapshot in
order, look up each answer, grade it, and count the correct verdicts. -/
def gradeAll (questions : List Question) (answers : GAnswers) : GradeAllResult :=
  let details := questions.enum.map (fun p => detailFor p.2 p.1 answers)
  { totalCorrect := (details.filter (fun d => d.isCorrect)).length, details := details }

/-! ### Session data model (`server/models/QuizSession.js`) -/

/-- The `status` enum of a session. -/
inductive Status where
  | inProgress
  | finished
  | timedOut
deriving DecidableEq, Repr

/-- One element of the `answers` array (`AnswerSchema`); the schema
defaults are the field defaults. -/
structure AnswerEntry where
  qid : String
  userAnswer : JVal := .undefinedV
  isCorrect : Bool := false
  timeTakenSeconds : ℚ := 0
deriving DecidableEq, Repr

/-- A stored `QuizSession` document.  Times are rationals
(milliseconds-since-epoch stands in for `Date`). -/
structure Session where
  id : String
  quiz : String
  user : String
  username : String := ""
  status : Status := .inProgress
  startedAt : ℚ := 0
  expiresAt : Option ℚ := none
  finishedAt : Option ℚ := none
  autoSubmitted : Bool := false
  questions : List Question := []
  answers : List AnswerEntry := []
  score : ℕ := 0
  totalQuestions : ℕ := 0
  isPractice : Bool := false
  attemptDurationSeconds : Option ℚ := none
deriving DecidableEq, Repr

/-! ### Session controller (`server/controllers/sessionController.js`)

Each handler takes the session the initial `findById` observed
(`sRead`, `none` when the document is missing) and, separately, the
state of the stored document at the moment its
`findOneAndUpdate({_id, status: "in-progress"}, ...)` executes
(`sWrite`).  In a race-free run `sWrite = sRead`; passing a different
`sWrite` expresses a concurrent writer landing between the read and the
conditional write, which is exactly the situation the conditional update
guards against. -/

/-- A client-safe question as returned by `startQuiz`/`getSession`;
the `explanation`/`answer_text`/`answer_index` fields are only attached
(`some`) on the finished-review path. -/
structure ClientQ where
  qid : String
  type : String
  difficulty : String
  question : String
  choices : List String
  explanation : Option String := none
  answer_text : Option JVal := none
  answer_index : Option JVal := none
deriving DecidableEq, Repr

/-- One entry of the reconstructed review-details array of
`getSession`. -/
structure ReviewDetail where
  qid : String
  isCorrect : Bool
  userAnswer : JVal
  explanation : String
  question : String
  expected : JVal
deriving DecidableEq, Repr

/-- A value of the `answers` map returned by `getSession`: the full
stored answer entry when the session is finished, the raw `userAnswer`
otherwise. -/
inductive AnswerView where
  | full (a : AnswerEntry)
  | raw (v : JVal)
deriving DecidableEq, Repr

/-- Whether an `AnswerView` carries the full graded entry. -/
def AnswerView.isFull : AnswerView → Bool
  | .full _ => true
  | .raw _ => false

/-- The JSON body `getSession` responds with. -/
structure GetResult where
  id : String
  quiz : String
  status : Status
  startedAt : ℚ
  expiresAt : Option ℚ
  totalQuestions : ℕ
  attemptDurationSeconds : Option ℚ
  questions : List ClientQ
  details : Option (List ReviewDetail)
  answers : List (String × AnswerView)
  score : ℕ
  autoSubmitted : Bool
deriving DecidableEq, Repr

/-- Outcome of `getSession`. -/
inductive GetOut where
  | ok (r : GetResult)
  | err (code : ℕ) (msg : String)
deriving DecidableEq, Repr

/-- `expected` of a review entry:
`q.answer_text || (q.choices && q.choices[q.answer_index]) || null`. -/
def reviewExpected (q : Question) : JVal :=
  if jsTruthy q.answer_text then q.answer_text
  else choiceAt q.choices (toNumber q.answer_index)

/-- The review entry `getSession` builds for one snapshot question by
joining it with the stored graded answer of the same qid. -/
def reviewFor (s : Session) (q : Question) : ReviewDetail :=
  let answer := s.answers.find? (fun a => a.qid = q.qid)
  { qid := q.qid
    isCorrect := match answer with | some a => a.isCorrect | none => false
    userAnswer := match answer with | some a => a.userAnswer | none => .undefinedV
    explanation := q.explanation
    question := q.question
    expected := reviewExpected q }

/-- The response body `getSession` builds for the owner: the
client-safe question list (answer fields only when
`status === "finished"`), the review details (finished only) and the
qid-keyed answers map (full entries only when finished). -/
def getSessionBody (s : Session) : GetResult :=
  let isFinished := s.status = .finished
  let clientQuestions := s.questions.map (fun q =>
    if isFinished then
      ({ qid := q.qid, type := q.type, difficulty := q.difficulty,
         question := q.question, choices := q.choices,
         explanation := some q.explanation,
         answer_text := some q.answer_text,
         answer_index := some q.answer_index } : ClientQ)
    else
      ({ qid := q.qid, type := q.type, difficulty := q.difficulty,
         question := q.question, choices := q.choices } : ClientQ))
  let reviewDetails := if isFinished then s.questions.map (reviewFor s) else []
  let answersMap := s.answers.foldl (fun m a =>
    objInsert m a.qid (if isFinished then AnswerView.full a else AnswerView.raw a.userAnswer)) []
  { id := s.id, quiz := s.quiz, status := s.status,
    startedAt := s.startedAt, expiresAt := s.expiresAt,
    totalQuestions := s.totalQuestions,
    attemptDurationSeconds := s.attemptDurationSeconds,
    questions := clientQuestions,
    details := if reviewDetails.length > 0 then some reviewDetails else none,
    answers := answersMap, score := s.score,
    autoSubmitted := s.autoSubmitted }

/-- `getSession(req)`: lookup and ownership check, then the response
body. -/
def getSession (userId : String) (sOpt : Option Session) : GetOut :=
  match sOpt with
  | none => .err 404 "Session not found"
  | some s =>
    if s.user ≠ userId then .err 403 "This session does not belong to you"
    else .ok (getSessionBody s)

/-- The `answers` payload of `saveSession`: an object mapping qid to
value, an array of `{qid, userAnswer}` entries (an absent or falsy qid
is modelled as `""`), or some other truthy non-object value. -/
inductive SavePayload where
  | obj (m : List (String × JVal))
  | arr (l : List (String × JVal))
  | other
deriving DecidableEq, Repr

/-- Outcome of `saveSession`. -/
inductive SaveRes where
  | ok (answersCount : ℕ)
  | err (code : ℕ) (msg : String)
deriving DecidableEq, Repr

/-- Result of `saveSession` together with the stored document after the
call. -/
structure SaveOut where
  response : SaveRes
  stored : Session
deriving DecidableEq, Repr

/-- The merge step of `saveSession`: reduce the existing answers into an
object keyed by qid (entries with a falsy qid are skipped), overwrite or
append each payload entry, then turn the object back into an array of
`{qid, userAnswer}` entries. -/
def mergeAnswers (existingAnswers : List AnswerEntry) (payload : List (String × JVal)) :
    List AnswerEntry :=
  let existing := existingAnswers.foldl
    (fun acc a => if a.qid ≠ "" then objInsert acc a.qid a else acc) []
  let merged := payload.foldl
    (fun acc p =>
      if p.1 ≠ "" then objInsert acc p.1 ({ qid := p.1, userAnswer := p.2 } : AnswerEntry)
      else acc)
    existing
  merged.map (fun kv => ({ qid := kv.1, userAnswer := kv.2.userAnswer } : AnswerEntry))

/-- `saveSession(req)`: payload validation, ownership and status checks
on the session as read, then the merged answers written through
`findOneAndUpdate({_id, status: "in-progress"})`; the conditional write
is evaluated against `sWrite`. -/
def saveSession (userId : String) (payload : SavePayload) (sRead : Option Session)
    (sWrite : Session) : SaveOut :=
  let answersArray : Option (List (String × JVal)) :=
    match payload with
    | .arr l => some l
    | .obj m => some m
    | .other => none
  match answersArray with
  | none => { response := .err 400 "Invalid answers payload", stored := sWrite }
  | some arr =>
    match sRead with
    | none => { response := .err 404 "Session not found", stored := sWrite }
    | some s =>
      if s.user ≠ userId then
        { response := .err 403 "This session does not belong to you", stored := sWrite }
      else if s.status ≠ .inProgress then
        { response := .err 409 "Session is not in-progress", stored := sWrite }
      else
        let merged := mergeAnswers s.answers arr
        if sWrite.status = .inProgress then
          { response := .ok merged.length, stored := { sWrite with answers := merged } }
        else
          { response := .err 409 "Session no longer in-progress", stored := sWrite }

/-- The `answers` payload of `submitSession` (empty object when the body
has none). -/
inductive SubmitPayload where
  | obj (m : List (String × JVal))
  | arr (l : List (String × JVal))
deriving DecidableEq, Repr

/-- `Object.keys(answersPayload).length > 0`. -/
def payloadNonempty : SubmitPayload → Bool
  | .obj m => m.length > 0
  | .arr l => l.length > 0

/-- The answers map built from an explicitly supplied payload
(array entries with a falsy qid are skipped; an object is copied by
`Object.assign`). -/
def payloadAnswersMap : SubmitPayload → List (String × JVal)
  | .arr l => l.foldl (fun m p => if p.1 ≠ "" then objInsert m p.1 p.2 else m) []
  | .obj m => m

/-- The answers map built from the previously saved session answers
(`session.answers.forEach(a => answersMap[a.qid] = a.userAnswer)` with
the falsy-qid guard). -/
def savedAnswersMap (answers : List AnswerEntry) : List (String × JVal) :=
  answers.foldl (fun m a => if a.qid ≠ "" then objInsert m a.qid a.userAnswer else m) []

/-- The success body of `submitSession`; `userIncluded` records whether
the response carried the updated user-stats object (it is dropped when
the stats write throws). -/
structure SubmitResOk where
  sessionId : String
  quizId : String
  score : ℕ
  totalQuestions : ℕ
  autoSubmitted : Bool
  details : List Detail
  userIncluded : Bool
deriving DecidableEq, Repr

/-- Outcome of `submitSession`. -/
inductive SubmitRes where
  | ok (r : SubmitResOk)
  | err (code : ℕ) (msg : String)
deriving DecidableEq, Repr

/-- The `$inc` applied to the owning user document. -/
structure StatsDelta where
  points : ℕ
  quizzesAttempted : ℕ
  totalCorrect : ℕ
deriving DecidableEq, Repr

/-- Result of `submitSession` together with the stored session after the
call and the stats increment that was applied. -/
structure SubmitOut where
  response : SubmitRes
  stored : Session
  statsDelta : StatsDelta
deriving DecidableEq, Repr

/-- `submitSession(req)`: ownership and status checks on the session as
read, the `autoSubmitted` deadline test, answer-set selection (supplied
payload when non-empty, saved answers otherwise), grading, then the
single conditional `findOneAndUpdate({_id, status: "in-progress"})`
write evaluated against `sWrite`; the user-stats `$inc` runs after a
successful write and its failure (`statsFails`) does not change the
success response apart from dropping the user object. -/
def submitSession (userId : String) (payload : SubmitPayload) (now : ℚ)
    (sRead : Option Session) (sWrite : Session) (statsFails : Bool) : SubmitOut :=
  let zero : StatsDelta := ⟨0, 0, 0⟩
  match sRead with
  | none => ⟨.err 404 "Session not found", sWrite, zero⟩
  | some s =>
    if s.user ≠ userId then
      ⟨.err 403 "This session does not belong to you", sWrite, zero⟩
    else if s.status ≠ .inProgress then
      ⟨.err 409 "Session already finished or timed-out", sWrite, zero⟩
    else
      let autoSubmitted := match s.expiresAt with
        | some e => decide (e < now)
        | none => false
      let answersMap :=
        if payloadNonempty payload then payloadAnswersMap payload
        else savedAnswersMap s.answers
      let gradeResult := gradeAll s.questions (.byMap answersMap)
      let score := gradeResult.totalCorrect
      let details := gradeResult.details
      let answersToStore := details.map (fun d =>
        ({ qid := d.qid, userAnswer := d.userAnswer, isCorrect := d.isCorrect,
           timeTakenSeconds := 0 } : AnswerEntry))
      if sWrite.status = .inProgress then
        let updated := { sWrite with
          status := .finished, finishedAt := some now,
          autoSubmitted := autoSubmitted, answers := answersToStore, score := score }
        if statsFails then
          ⟨.ok ⟨updated.id, updated.quiz, score, updated.totalQuestions,
                autoSubmitted, details, false⟩, updated, zero⟩
        else
          ⟨.ok ⟨updated.id, updated.quiz, score, updated.totalQuestions,
                autoSubmitted, details, true⟩, updated, ⟨score, 1, score⟩⟩
      else
        ⟨.err 409 "Session already finished (race detected)", sWrite, zero⟩

/-- Quiz settings consulted by `startQuiz`. -/
structure QuizSettings where
  shuffleQuestions : Bool := false
  attemptDurationSeconds : Option ℚ := none
  timeLimitSeconds : Option ℚ := none
deriving DecidableEq, Repr

/-- The quiz fields `startQuiz` reads. -/
structure Quiz where
  id : String
  questions : List Question := []
  startAt : Option ℚ := none
  endAt : Option ℚ := none
  settings : QuizSettings := {}
deriving DecidableEq, Repr

/-- Swap two positions of a list (identity when either index is out of
range). -/
def listSwap (l : List α) (i j : ℕ) : List α :=
  match l.get? i, l.get? j with
  | some x, some y => (l.set i y).set j x
  | _, _ => l

/-- The Fisher–Yates loop of `startQuiz`, with the stream of random
draws injected: `rand i` stands for `Math.floor(Math.random() * (i+1))`
at loop index `i` (reduced mod `i+1` to keep it a valid draw). -/
def fyGo (rand : ℕ → ℕ) (l : List α) : ℕ → List α
  | 0 => l
  | i + 1 => fyGo rand (listSwap l (i + 1) (rand (i + 1) % (i + 2))) i

/-- In-place shuffle of the snapshot when the quiz requests it. -/
def fisherYates (rand : ℕ → ℕ) (l : List α) : List α :=
  match l.length with
  | 0 => l
  | n + 1 => fyGo rand l n

/-- Snapshot of one quiz question at position `i`
(`qid: q.qid || "q<i+1>"`, answer fields `?? null`, explanation
`?? ""`). -/
def snapshotQ (i : ℕ) (q : Question) : Question :=
  { qid := if q.qid ≠ "" then q.qid else "q" ++ toString (i + 1)
    id := ""
    type := q.type
    difficulty := q.difficulty
    question := q.question
    choices := q.choices
    answer_index := if q.answer_index = .undefinedV then .null else q.answer_index
    answer_text := if q.answer_text = .undefinedV then .null else q.answer_text
    explanation := q.explanation }

/-- The success body of `startQuiz`. -/
structure StartResOk where
  sessionId : String
  quizId : String
  expiresAt : Option ℚ
  attemptDurationSeconds : Option ℚ
  totalQuestions : ℕ
  questions : List ClientQ
deriving DecidableEq, Repr

/-- Outcome of `startQuiz`; the `ok` case also carries the session
document that was inserted. -/
inductive StartRes where
  | ok (r : StartResOk) (created : Session)
  | err (code : ℕ) (msg : String)
deriving DecidableEq, Repr

/-- `startQuiz(req)`: quiz lookup, availability window, the
single-attempt check (`findOne({quiz, user, status: "finished"})` over
the stored sessions), snapshot construction with optional shuffle,
deadline computation, and creation of the `in-progress` session. -/
def startQuiz (userId username quizId : String) (quizOpt : Option Quiz) (now : ℚ)
    (newSessionId : String) (sessions : List Session) (rand : ℕ → ℕ) : StartRes :=
  match quizOpt with
  | none => .err 404 "Quiz not found"
  | some quiz =>
    if (match quiz.startAt with | some t => decide (now < t) | none => false) then
      .err 400 "Quiz has not started yet"
    else if (match quiz.endAt with | some t => decide (t < now) | none => false) then
      .err 400 "Quiz has ended"
    else if sessions.any (fun s =>
        decide (s.quiz = quizId ∧ s.user = userId ∧ s.status = .finished)) then
      .err 403 "You have already completed this quiz (single attempt only)"
    else
      let snap := (quiz.questions.enum.map (fun p => snapshotQ p.1 p.2))
      let questionsSnapshot :=
        if quiz.settings.shuffleQuestions then fisherYates rand snap else snap
      let durationSeconds :=
        match quiz.settings.attemptDurationSeconds with
        | some d => some d
        | none => quiz.settings.timeLimitSeconds
      let expiresAt :=
        match durationSeconds with
        | some d => if 0 < d then some (now + d * 1000) else none
        | none => none
      let session : Session :=
        { id := newSessionId, quiz := quiz.id, user := userId, username := username,
          status := .inProgress, startedAt := now, expiresAt := expiresAt,
          questions := questionsSnapshot, totalQuestions := questionsSnapshot.length,
          isPractice := false, attemptDurationSeconds := durationSeconds, answers := [] }
      let clientQuestions := questionsSnapshot.map (fun q =>
        ({ qid := q.qid, type := q.type, difficulty := q.difficulty,
           question := q.question, choices := q.choices } : ClientQ))
      .ok ⟨session.id, quiz.id, expiresAt, durationSeconds,
           session.totalQuestions, clientQuestions⟩ session

/-! ### Expiry cron job (`server/cron/expireSessions.js`) -/

/-- The sweeper's selection query:
`find({status: "in-progress", expiresAt: {$lte: now}}).limit(200)`. -/
def expireSelect (now : ℚ) (sessions : List Session) : List Session :=
  (sessions.filter (fun s =>
    decide (s.status = .inProgress) &&
    (match s.expiresAt with | some e => decide (e ≤ now) | none => false))).take 200

/-- The in-memory mutation the sweeper applies to a selected session
document: grade the saved answers (`answersMap[a.qid] = a.userAnswer`
with no qid guard), then set status `timed-out`, `finishedAt`,
`autoSubmitted`, `score` and the graded `answers`. -/
def sweepGradeOne (now : ℚ) (s : Session) : Session :=
  let answersMap := s.answers.foldl (fun m a => objInsert m a.qid a.userAnswer) []
  let result := gradeAll s.questions (.byMap answersMap)
  { s with
    status := .timedOut
    finishedAt := some now
    autoSubmitted := true
    score := result.totalCorrect
    answers := result.details.map (fun d =>
      ({ qid := d.qid, userAnswer := d.userAnswer, isCorrect := d.isCorrect } : AnswerEntry)) }

/-- The effect of the sweeper's `await s.save()` on the stored document:
a plain write of the modified paths keyed on `_id` only — it carries no
precondition on the current `status`, so it lands on whatever the store
holds at that moment. -/
def sweepApplySave (current graded : Session) : Session :=
  { current with
    status := graded.status
    finishedAt := graded.finishedAt
    autoSubmitted := graded.autoSubmitted
    score := graded.score
    answers := graded.answers }

/-- The shared mutable state a sweeper tick acts on: the stored session
document plus the owning user's aggregate counters. -/
structure World where
  session : Session
  points : ℕ
  attempted : ℕ
  correctTotal : ℕ
deriving DecidableEq, Repr

/-- Whether a submit produced a success response. -/
def SubmitRes.isOk : SubmitRes → Bool
  | .ok _ => true
  | .err _ _ => false

/-- The grading-derived core of a successful submit response: score,
total question count, autoSubmitted flag and per-question details. -/
def SubmitRes.okCore : SubmitRes → Option (ℕ × ℕ × Bool × List Detail)
  | .ok r => some (r.score, r.totalQuestions, r.autoSubmitted, r.details)
  | .err _ _ => none

/-- Last-occurrence association lookup over an arbitrary element type:
the value of the last element whose (non-empty) key equals `key`.  This
is the observable effect of building a JS object by assigning the
elements in order. -/
def lastBy (keyf : β → String) (valf : β → α) : List β → String → Option α
  | [], _ => none
  | b :: rest, key =>
    match lastBy keyf valf rest key with
    | some v => some v
    | none => if keyf b ≠ "" ∧ keyf b = key then some (valf b) else none

/-- Lookup of the answer recorded for `key` in an answers array (first
match, as `Array.prototype.find` does). -/
def ansLookup (l : List AnswerEntry) (key : String) : Option JVal :=
  (l.find? (fun a => a.qid = key)).map (fun a => a.userAnswer)

/-- Whether a question's expected answer survives its grader's
normalization as a non-empty key; when it does, grading an absent
(`undefined`) user answer is incorrect. -/
def expectedNonempty (q : Question) : Bool :=
  if q.type = "mcq" then true
  else if q.type = "tf" then normalizeTextStr (jsStrOrEmpty q.answer_text) ≠ ""
  else shortExpectedToken (jsStrOrEmpty q.answer_text) ≠ ""

/-- Strategy 1 of the short grader, as the code implements it: the
normalized first token of the expected text is non-empty and equals the
sanitized first token of the user answer. -/
def shortExact (q : Question) (ua : JVal) : Bool :=
  decide (shortExpectedToken (jsStrOrEmpty q.answer_text) ≠ ""
    ∧ sanitizeUserShortAnswer ua = shortExpectedToken (jsStrOrEmpty q.answer_text))

/-- Strategy 2 of the short grader: the raw expected text and the
sanitized user token both parse as numbers differing by less than
`1e-9`. -/
def shortNumeric (q : Question) (ua : JVal) : Bool :=
  match parseMaybeNumber (.str (jsStrOrEmpty q.answer_text)),
        parseMaybeNumber (.str (sanitizeUserShortAnswer ua)) with
  | some e, some u => decide (|e - u| < (1 : ℚ) / 1000000000)
  | _, _ => false

/-- Strategy 3 of the short grader: the claim's normalized
edit-distance similarity `1 - d/max(len, len)` over the two sanitized
tokens (1 when both are empty). -/
def shortSimilarity (q : Question) (ua : JVal) : ℚ :=
  let e := shortExpectedToken (jsStrOrEmpty q.answer_text)
  let u := sanitizeUserShortAnswer ua
  let maxLen := max e.length u.length
  if maxLen = 0 then 1
  else 1 - (levenshtein e.toList u.toList : ℚ) / (maxLen : ℚ)

/-- Modelled from the claim's wording of strategy 1 for C7: BOTH sides
sanitized to just their first whitespace-delimited lowercase token (no
punctuation stripping on either side), then the three-strategy cascade.
The code disagrees: its expected side also strips punctuation. -/
def claimFirstToken (s : String) : String :=
  match (jsSplitWs (jsTrim s)).filter (fun p => p ≠ "") with
  | [] => ""
  | p :: _ => jsToLower p

/-- Modelled from the claim's wording for C7: the short-answer verdict
with strategy 1 as claimed (first-token sanitization of both sides),
followed by the numeric and fuzzy strategies on those tokens. -/
def claimGradeShort (expected user : String) : Bool :=
  let e := claimFirstToken expected
  let u := claimFirstToken user
  if e = u then true
  else
    match parseMaybeNumber (.str e), parseMaybeNumber (.str u) with
    | some a, some b =>
      if |a - b| < (1 : ℚ) / 1000000000 then true else decide (similarity e u ≥ 4 / 5)
    | _, _ => decide (similarity e u ≥ 4 / 5)

/-- Modelled from the claim's wording for C3: the per-question priority
merge (the supplied answer for a qid is used when present, the
previously saved answer otherwise).  The code instead discards the
saved answers wholesale whenever the supplied set is non-empty. -/
def claimMerge (supplied : List (String × JVal)) (saved : List AnswerEntry) :
    List (String × JVal) :=
  supplied.foldl (fun m p => objInsert m p.1 p.2) (savedAnswersMap saved)

/-- No PER-QUESTION field derived from the correct answers,
explanations or verdicts is present in a `getSession` response: no
review details, no explanation/answer fields on any question, and only
raw user values in the answers map.  (The aggregate `score` and
`autoSubmitted` fields are outside this predicate: `getSession` returns
them unconditionally at every status.) -/
def noLeak (r : GetResult) : Bool :=
  r.details.isNone &&
  r.questions.all (fun q => q.explanation.isNone && q.answer_text.isNone && q.answer_index.isNone) &&
  r.answers.all (fun kv => !kv.2.isFull)

/-! ### Concrete scenario data -/

/-- A one-word short question whose expected answer is `cat`. -/
def qShortCat : Question :=
  { qid := "q1", type := "short", difficulty := "easy", question := "Which animal purrs?",
    answer_index := .null, answer_text := .str "cat", explanation := "Cats purr." }

/-- A second short question (`dog`). -/
def qShortDog : Question :=
  { qid := "q2", type := "short", difficulty := "easy", question := "Which animal barks?",
    answer_index := .null, answer_text := .str "dog", explanation := "Dogs bark." }

/-- A short question whose author supplied no expected answer text
(snapshotted as `null`). -/
def qShortNoAnswer : Question :=
  { qid := "q1", type := "short", difficulty := "easy", question := "Free response",
    answer_index := .null, answer_text := .null, explanation := "" }

/-- An in-progress attempt, past its deadline (`expiresAt = 10`), with
the correct answer to its single question already saved. -/
def sRace : Session :=
  { id := "s1", quiz := "qz1", user := "u1", username := "alice",
    status := .inProgress, startedAt := 0, expiresAt := some 10,
    questions := [qShortCat],
    answers := [{ qid := "q1", userAnswer := .str "cat" }],
    totalQuestions := 1 }

/-- The user-triggered submit of `sRace` at time 20, running entirely
between the sweeper's selection query and the sweeper's save. -/
def raceUserSubmit : SubmitOut :=
  submitSession "u1" (.obj []) 20 (some sRace) sRace false

/-- The sweeper's graded copy of its stale read of `sRace`. -/
def raceSweeperGraded : Session := sweepGradeOne 20 sRace

/-- The stored document after the sweeper's unconditional save lands on
the record the user submit has already finalized. -/
def raceFinalSession : Session := sweepApplySave raceUserSubmit.stored raceSweeperGraded

/-- An in-progress attempt with two questions and one saved answer,
used for the answer-priority claim. -/
def sTwoQ : Session :=
  { id := "s2", quiz := "qz1", user := "u1", username := "alice",
    status := .inProgress, startedAt := 0, expiresAt := none,
    questions := [qShortCat, qShortDog],
    answers := [{ qid := "q1", userAnswer := .str "cat" }],
    totalQuestions := 2 }

/-- A timed-out attempt holding graded answers and a question with an
explanation, used for the read-visibility claim. -/
def sTimedOut : Session :=
  { id := "s3", quiz := "qz1", user := "u1", username := "alice",
    status := .timedOut, startedAt := 0, expiresAt := some 10,
    finishedAt := some 20, autoSubmitted := true,
    questions := [qShortCat],
    answers := [{ qid := "q1", userAnswer := .str "cat", isCorrect := true }],
    score := 1, totalQuestions := 1 }

/-- A finished attempt for the same quiz and user (single-attempt
policy data). -/
def sFinished : Session :=
  { id := "s4", quiz := "qz1", user := "u1", username := "alice",
    status := .finished, startedAt := 0, finishedAt := some 5,
    questions := [qShortCat],
    answers := [{ qid := "q1", userAnswer := .str "cat", isCorrect := true }],
    score := 1, totalQuestions := 1 }

/-- The single-session store plus user counters the race scenarios
start from. -/
def raceWorld : World := { session := sRace, points := 0, attempted := 0, correctTotal := 0 }

/-- A quiz with one question and no availability window. -/
def quizEx : Quiz := { id := "qz1", questions := [qShortCat] }

/-- A concrete SaveProgress payload: overwrite `q1`, add `q3`. -/
def plEx : List (String × JVal) := [("q1", JVal.str "lion"), ("q3", JVal.str "x")]

/-- A short question whose expected answer text carries punctuation. -/
def qDogBang : Question := { qid := "q1", type := "short", answer_text := .str "dog!" }

/-- The interleaved execution of a user Finalize racing the expiry
sweeper on `sRace`: the sweeper runs its selection query, then the user
submit runs to completion (conditional write plus stats increment),
then the sweeper grades its stale read, saves unconditionally and
applies its own stats increment. -/
def raceInterleaved : World :=
  match expireSelect 20 [sRace] with
  | [] => raceWorld
  | sStale :: _ =>
    let afterUser : World :=
      { session := raceUserSubmit.stored
        points := raceWorld.points + raceUserSubmit.statsDelta.points
        attempted := raceWorld.attempted + raceUserSubmit.statsDelta.quizzesAttempted
        correctTotal := raceWorld.correctTotal + raceUserSubmit.statsDelta.totalCorrect }
    let g := sweepGradeOne 20 sStale
    { session := sweepApplySave afterUser.session g
      points := afterUser.points + g.score
      attempted := afterUser.attempted + 1
      correctTotal := afterUser.correctTotal + g.score }

/-! ### Helper lemmas about association-list objects and strings -/

attribute [local semireducible] Rat.add Rat.sub Rat.mul Rat.inv

/-- Looking a key up after a JS object assignment sees the new value
exactly when the keys agree. -/
theorem objLookup_objInsert (m : List (String × α)) (k : String) (v : α) (key : String) :
    objLookup (objInsert m k v) key = if k = key then some v else objLookup m key := by
  induction m with
  | nil => simp [objInsert, objLookup]
  | cons hd tl ih =>
    obtain ⟨k0, v0⟩ := hd
    by_cases h1 : k0 = k
    · subst h1
      by_cases h2 : k0 = key <;> simp [objInsert, objLookup, h2]
    · by_cases h2 : k0 = key
      · subst h2
        have : ¬ k = k0 := fun h => h1 h.symm
        simp [objInsert, objLookup, h1, this]
      · simp [objInsert, objLookup, h1, h2, ih]

/-- Every element of an object after an assignment is the new binding
or one of the old ones. -/
theorem mem_objInsert {m : List (String × α)} {k : String} {v : α} {x : String × α}
    (h : x ∈ objInsert m k v) : x = (k, v) ∨ x ∈ m := by
  induction m with
  | nil => simpa [objInsert] using h
  | cons hd tl ih =>
    obtain ⟨k0, v0⟩ := hd
    by_cases h1 : k0 = k
    · subst h1
      rcases (by simpa [objInsert] using h : x = (k0, v) ∨ x ∈ tl) with h2 | h2
      · exact Or.inl h2
      · exact Or.inr (List.mem_cons_of_mem _ h2)
    · rcases (by simpa [objInsert, h1] using h : x = (k0, v0) ∨ x ∈ objInsert tl k v) with h2 | h2
      · exact Or.inr (by simp [h2])
      · rcases ih h2 with h3 | h3
        · exact Or.inl h3
        · exact Or.inr (List.mem_cons_of_mem _ h3)

/-- Building an object by assigning a list of elements in order (keys
with a falsy name skipped) makes lookup return the value of the last
element carrying the key, falling back to the initial object. -/
theorem objLookup_foldl (keyf : β → String) (valf : β → α) (l : List β)
    (init : List (String × α)) (key : String) :
    objLookup (l.foldl (fun acc b => if keyf b ≠ "" then objInsert acc (keyf b) (valf b) else acc) init) key
      = match lastBy keyf valf l key with
        | some v => some v
        | none => objLookup init key := by
  induction l generalizing init with
  | nil => simp [lastBy]
  | cons b rest ih =>
    rw [List.foldl_cons, ih]
    cases hl : lastBy keyf valf rest key with
    | some v => simp [lastBy, hl]
    | none =>
      simp only [lastBy, hl]
      by_cases hb : keyf b = ""
      · simp [hb]
      · by_cases hk : keyf b = key
        · subst hk
          simp [hb, objLookup_objInsert]
        · simp [hb, hk, objLookup_objInsert]

/-- `lastBy` commutes with mapping the stored value. -/
theorem lastBy_map (keyf : β → String) (valf : β → α) (g : α → γ) (l : List β) (key : String) :
    (lastBy keyf valf l key).map g = lastBy keyf (fun b => g (valf b)) l key := by
  induction l with
  | nil => simp [lastBy]
  | cons b rest ih =>
    cases hl : lastBy keyf valf rest key with
    | some v =>
      have := congrArg (Option.map g) hl
      simp only [lastBy, hl]
      rw [← ih, hl]
      simp
    | none =>
      simp only [lastBy]
      rw [hl, ← ih, hl]
      by_cases hc : keyf b ≠ "" ∧ keyf b = key
      · obtain ⟨hc1, hc2⟩ := hc
        subst hc2
        simp [hc1]
      · simp [hc]

/-- Every element of an object built by unconditional assignments comes
from the assigned list or the initial object. -/
theorem mem_foldl_objInsert (keyf : β → String) (valf : β → α) (l : List β)
    (init : List (String × α)) (x : String × α)
    (h : x ∈ l.foldl (fun m b => objInsert m (keyf b) (valf b)) init) :
    (∃ b ∈ l, x = (keyf b, valf b)) ∨ x ∈ init := by
  induction l generalizing init with
  | nil => exact Or.inr (by simpa using h)
  | cons b rest ih =>
    rw [List.foldl_cons] at h
    rcases ih _ h with h2 | h2
    · rcases h2 with ⟨c, hc, hx⟩
      exact Or.inl ⟨c, List.mem_cons_of_mem _ hc, hx⟩
    · rcases mem_objInsert h2 with h3 | h3
      · exact Or.inl ⟨b, List.mem_cons_self _ _, h3⟩
      · exact Or.inr h3

/-- Projecting an object of answer entries back to an answers array
preserves per-qid lookup. -/
theorem ansLookup_mapEntries (m : List (String × AnswerEntry)) (key : String) :
    ansLookup (m.map (fun kv => ({ qid := kv.1, userAnswer := kv.2.userAnswer } : AnswerEntry))) key
      = (objLookup m key).map (fun a => a.userAnswer) := by
  induction m with
  | nil => simp [ansLookup, objLookup]
  | cons hd tl ih =>
    obtain ⟨k0, e⟩ := hd
    by_cases h : k0 = key
    · simp [ansLookup, objLookup, List.find?, h]
    · simpa [ansLookup, objLookup, List.find?, h] using ih

/-- Edit distance to the empty string is the length. -/
theorem levenshtein_nil_right (s : List Char) : levenshtein s [] = s.length := by
  cases s <;> rfl

/-- A non-empty string has non-zero length. -/
theorem string_length_ne_zero {t : String} (h : t ≠ "") : t.length ≠ 0 := by
  intro h0
  apply h
  cases t with
  | mk data =>
    cases data with
    | nil => decide
    | cons c cs => simp [String.length] at h0

/-- Similarity of a non-empty string against the empty string is 0. -/
theorem similarity_empty_right {t : String} (h : t ≠ "") : similarity t "" = 0 := by
  have hlen : t.length ≠ 0 := string_length_ne_zero h
  have hempty : ("" : String).length = 0 := by decide
  have htl : levenshtein t.toList ("" : String).toList = t.length := by
    have : ("" : String).toList = [] := by decide
    rw [this, levenshtein_nil_right]
    rfl
  simp only [similarity, hempty, Nat.max_eq_left (Nat.zero_le _), htl]
  rw [if_neg hlen]
  have : ((t.length : ℕ) : ℚ) ≠ 0 := Nat.cast_ne_zero.mpr hlen
  field_simp

/-! ### Claim theorems -/

/-- C6: after an attempt has been finalized (status is terminal), every
well-formed SaveProgress call by the owner on that attempt id returns a
Conflict error (HTTP 409) and leaves the stored attempt record
unchanged. -/
theorem C6_save_terminal_conflict (uid : String) (payload : SavePayload) (s : Session)
    (hValid : payload ≠ .other) (hOwn : s.user = uid) (hTerm : s.status ≠ .inProgress) :
    saveSession uid payload (some s) s =
      { response := .err 409 "Session is not in-progress", stored := s } := by
  cases payload with
  | obj m => simp [saveSession, hOwn, hTerm]
  | arr l => simp [saveSession, hOwn, hTerm]
  | other => exact absurd rfl hValid

/-- Witness for C6 at a concrete finished attempt. -/
theorem C6_witness :
    saveSession "u1" (.obj [("q1", JVal.str "late edit")]) (some sFinished) sFinished =
      { response := .err 409 "Session is not in-progress", stored := sFinished } :=
  C6_save_terminal_conflict "u1" _ sFinished (by decide) rfl (by decide)

/-- C10: with the quiz present and inside its availability window,
StartAttempt returns the duplicate-attempt Forbidden error exactly when
some stored attempt for the same (quiz id, user id) pair has status
`finished`; in particular a `timed-out` attempt does not block a new
start. -/
theorem C10_single_attempt (uid uname quizId : String) (qz : Quiz) (now : ℚ)
    (sid : String) (sessions : List Session) (rand : ℕ → ℕ)
    (hStart : ∀ t, qz.startAt = some t → ¬ now < t)
    (hEnd : ∀ t, qz.endAt = some t → ¬ t < now) :
    (startQuiz uid uname quizId (some qz) now sid sessions rand
        = .err 403 "You have already completed this quiz (single attempt only)")
      ↔ ∃ s ∈ sessions, s.quiz = quizId ∧ s.user = uid ∧ s.status = .finished := by
  have h1 : (match qz.startAt with | some t => decide (now < t) | none => false) = false := by
    cases h : qz.startAt with
    | none => rfl
    | some t => simpa using hStart t h
  have h2 : (match qz.endAt with | some t => decide (t < now) | none => false) = false := by
    cases h : qz.endAt with
    | none => rfl
    | some t => simpa using hEnd t h
  by_cases hAny : sessions.any
      (fun s => decide (s.quiz = quizId ∧ s.user = uid ∧ s.status = .finished)) = true
  · have hEx : ∃ s ∈ sessions, s.quiz = quizId ∧ s.user = uid ∧ s.status = .finished := by
      simpa using hAny
    simp [startQuiz, h1, h2, hAny, hEx]
  · have hEx : ¬ ∃ s ∈ sessions, s.quiz = quizId ∧ s.user = uid ∧ s.status = .finished := by
      simpa using hAny
    simp [startQuiz, h1, h2, hAny, hEx]

/-- Witness for C10: a stored `timed-out` attempt does not trigger the
Forbidden error, a stored `finished` attempt does. -/
theorem C10_witness :
    ¬ (startQuiz "u1" "alice" "qz1" (some quizEx) 0 "new"
        [sTimedOut] (fun _ => 0)
        = .err 403 "You have already completed this quiz (single attempt only)")
    ∧ (startQuiz "u1" "alice" "qz1" (some quizEx) 0 "new"
        [sFinished] (fun _ => 0)
        = .err 403 "You have already completed this quiz (single attempt only)") := by
  have hs : ∀ t : ℚ, quizEx.startAt = some t → ¬ (0 : ℚ) < t := by
    intro t ht
    simp [quizEx] at ht
  have he : ∀ t : ℚ, quizEx.endAt = some t → ¬ t < (0 : ℚ) := by
    intro t ht
    simp [quizEx] at ht
  constructor
  · intro h
    exact (by decide : ¬ ∃ s ∈ [sTimedOut], s.quiz = "qz1" ∧ s.user = "u1" ∧ s.status = .finished)
      ((C10_single_attempt "u1" "alice" "qz1" quizEx 0 "new" [sTimedOut] (fun _ => 0)
        hs he).mp h)
  · exact (C10_single_attempt "u1" "alice" "qz1" quizEx 0 "new" [sFinished] (fun _ => 0)
      hs he).mpr (by decide)

/-- C8: when the atomic finalize write succeeds, a failure of the
post-finalization user-stats increment does not change the success
response (score, total question count, autoSubmitted flag, per-question
details) nor the stored finalized record; the response merely drops the
user-stats object. -/
theorem C8_stats_failure_nonfatal (uid : String) (payload : SubmitPayload) (now : ℚ)
    (s sW : Session) (hOwn : s.user = uid) (hIn : s.status = .inProgress)
    (hW : sW.status = .inProgress) :
    (submitSession uid payload now (some s) sW true).response.okCore
        = (submitSession uid payload now (some s) sW false).response.okCore
    ∧ (submitSession uid payload now (some s) sW true).response.isOk = true
    ∧ (submitSession uid payload now (some s) sW true).stored
        = (submitSession uid payload now (some s) sW false).stored
    ∧ (submitSession uid payload now (some s) sW true).stored.status = .finished := by
  simp [submitSession, hOwn, hIn, hW, SubmitRes.okCore, SubmitRes.isOk]

/-- Witness for C8 at a concrete in-progress attempt. -/
theorem C8_witness :
    (submitSession "u1" (.obj []) 20 (some sRace) sRace true).response.okCore
        = (submitSession "u1" (.obj []) 20 (some sRace) sRace false).response.okCore
    ∧ (submitSession "u1" (.obj []) 20 (some sRace) sRace true).response.isOk = true
    ∧ (submitSession "u1" (.obj []) 20 (some sRace) sRace true).stored
        = (submitSession "u1" (.obj []) 20 (some sRace) sRace false).stored
    ∧ (submitSession "u1" (.obj []) 20 (some sRace) sRace true).stored.status = .finished :=
  C8_stats_failure_nonfatal "u1" (.obj []) 20 sRace sRace rfl rfl rfl

/-- C1 (counterexample): in the interleaving where the sweeper selects
the expired in-progress attempt, the user Finalize then runs to
completion, and the sweeper finally grades its stale read and saves, the
user Finalize succeeds AND the sweeper transitions the already-finished
record again without observing any conflict: the final status is
`timed-out` (overwriting `finished`), the attempt counter has been
incremented twice and the points credited twice — two grading/stats
passes, refuting "exactly one succeeds and the other observes
Conflict". -/
theorem C1_counterexample :
    raceUserSubmit.response.isOk = true
    ∧ raceUserSubmit.stored.status = .finished
    ∧ expireSelect 20 [sRace] = [sRace]
    ∧ raceInterleaved.session.status = .timedOut
    ∧ raceInterleaved.attempted = 2
    ∧ raceInterleaved.points = 2
    ∧ raceUserSubmit.statsDelta.points = 1
    ∧ (sweepApplySave sFinished (sweepGradeOne 20 sRace)).status = .timedOut := by
  exact ⟨rfl, rfl, rfl, rfl, rfl, rfl, rfl, rfl⟩

/-- C1 (amended): the user-triggered Finalize transition is a single
conditional write whose precondition is that the status is still
in-progress — it succeeds iff the store still holds `in-progress` at
write time, a success makes the status `finished`, a guard failure
returns Conflict and leaves the store and stats untouched, and a second
Finalize racing behind a first one never succeeds.  (The Expiry
Sweeper's forced finalize does NOT go through this guard; see the
counterexample.) -/
theorem C1_conditional_finalize (uid : String) (payload : SubmitPayload) (now : ℚ)
    (s sW : Session) (f : Bool) (hOwn : s.user = uid) (hIn : s.status = .inProgress) :
    ((submitSession uid payload now (some s) sW f).response.isOk = true
        ↔ sW.status = .inProgress)
    ∧ (sW.status = .inProgress →
        (submitSession uid payload now (some s) sW f).stored.status = .finished)
    ∧ (sW.status ≠ .inProgress →
        submitSession uid payload now (some s) sW f
          = ⟨.err 409 "Session already finished (race detected)", sW, ⟨0, 0, 0⟩⟩)
    ∧ (submitSession uid payload now (some s)
        ((submitSession uid payload now (some s) sW f).stored) f).response.isOk = false := by
  by_cases hW : sW.status = .inProgress
  · cases f <;> simp [submitSession, hOwn, hIn, hW, SubmitRes.isOk]
  · cases f <;> simp [submitSession, hOwn, hIn, hW, SubmitRes.isOk]

/-- Witness for C1 (amended) at the concrete attempt `sRace`. -/
theorem C1_witness :
    ((submitSession "u1" (.obj []) 20 (some sRace) sRace false).response.isOk = true
        ↔ sRace.status = .inProgress)
    ∧ (sRace.status = .inProgress →
        (submitSession "u1" (.obj []) 20 (some sRace) sRace false).stored.status = .finished)
    ∧ (sRace.status ≠ .inProgress →
        submitSession "u1" (.obj []) 20 (some sRace) sRace false
          = ⟨.err 409 "Session already finished (race detected)", sRace, ⟨0, 0, 0⟩⟩)
    ∧ (submitSession "u1" (.obj []) 20 (some sRace)
        ((submitSession "u1" (.obj []) 20 (some sRace) sRace false).stored) false).response.isOk
        = false :=
  C1_conditional_finalize "u1" (.obj []) 20 sRace sRace false rfl rfl

/-- C2 (counterexample): a `timed-out` attempt is terminal and its
stored record holds an explanation and a graded verdict, yet ReadAttempt
returns none of the per-question correct-answer fields, no review
details and only raw answer values — the claim's "either terminal
status" is false; only `finished` reveals them.  At the same time the
response does expose the stored aggregate `score` (here 1), which for a
timed-out attempt is the graded count of `isCorrect` verdicts. -/
theorem C2_counterexample :
    sTimedOut.status = .timedOut
    ∧ getSession "u1" (some sTimedOut) = .ok (getSessionBody sTimedOut)
    ∧ noLeak (getSessionBody sTimedOut) = true
    ∧ (getSessionBody sTimedOut).score = 1
    ∧ qShortCat.explanation = "Cats purr."
    ∧ sTimedOut.answers.map (fun a => a.isCorrect) = [true] := by
  exact ⟨rfl, rfl, rfl, rfl, rfl, rfl⟩

/-- C2 (amended): ReadAttempt by the owner returns the response body;
the stored aggregate `score` and the `autoSubmitted` flag are returned
unconditionally at every status (for a timed-out attempt the score is
the graded total, so the aggregate — though no per-question verdict —
is visible before status `finished`); when the status is anything other
than `finished` (in-progress or timed-out) no per-question field
derived from correct answers, explanations or verdicts is present; when
the status is `finished` every returned question carries the
explanation and answer fields, every answers-map entry is the full
graded record, and the review details join the snapshot with the stored
answers by qid. -/
theorem C2_answer_visibility (uid : String) (s : Session) (hOwn : s.user = uid) :
    getSession uid (some s) = .ok (getSessionBody s)
    ∧ (getSessionBody s).score = s.score
    ∧ (getSessionBody s).autoSubmitted = s.autoSubmitted
    ∧ (s.status ≠ .finished → noLeak (getSessionBody s) = true)
    ∧ (s.status = .finished →
        ((getSessionBody s).questions.all
            (fun q => q.explanation.isSome && q.answer_text.isSome && q.answer_index.isSome)) = true
        ∧ ((getSessionBody s).answers.all (fun kv => kv.2.isFull)) = true
        ∧ (getSessionBody s).details
            = (if 0 < s.questions.length then some (s.questions.map (reviewFor s)) else none)) := by
  refine ⟨by simp [getSession, hOwn], rfl, rfl, ?_, ?_⟩
  · intro hF
    have hdet : (getSessionBody s).details = none := by
      simp [getSessionBody, hF]
    have hq : ((getSessionBody s).questions.all
        (fun q => q.explanation.isNone && q.answer_text.isNone && q.answer_index.isNone)) = true := by
      simp [getSessionBody, hF, List.all_map]
    have ha : ((getSessionBody s).answers.all (fun kv => !kv.2.isFull)) = true := by
      rw [List.all_eq_true]
      intro kv hkv
      have hmem : kv ∈ s.answers.foldl
          (fun m a => objInsert m a.qid (AnswerView.raw a.userAnswer)) [] := by
        simpa [getSessionBody, hF] using hkv
      rcases mem_foldl_objInsert (fun a : AnswerEntry => a.qid)
          (fun a => AnswerView.raw a.userAnswer) s.answers [] kv hmem with ⟨b, hb, hx⟩ | hx
      · subst hx
        rfl
      · simp at hx
    simp [noLeak, hdet, hq, ha]
  · intro hF
    refine ⟨by simp [getSessionBody, hF, List.all_map], ?_, ?_⟩
    · rw [List.all_eq_true]
      intro kv hkv
      have hmem : kv ∈ s.answers.foldl
          (fun m a => objInsert m a.qid (AnswerView.full a)) [] := by
        simpa [getSessionBody, hF] using hkv
      rcases mem_foldl_objInsert (fun a : AnswerEntry => a.qid)
          (fun a => AnswerView.full a) s.answers [] kv hmem with ⟨b, hb, hx⟩ | hx
      · subst hx
        rfl
      · simp at hx
    · simp [getSessionBody, hF]

/-- Witness for C2 (amended) at the concrete in-progress attempt
`sRace`. -/
theorem C2_witness :
    getSession "u1" (some sRace) = .ok (getSessionBody sRace)
    ∧ (getSessionBody sRace).score = sRace.score
    ∧ (getSessionBody sRace).autoSubmitted = sRace.autoSubmitted
    ∧ (sRace.status ≠ .finished → noLeak (getSessionBody sRace) = true)
    ∧ (sRace.status = .finished →
        ((getSessionBody sRace).questions.all
            (fun q => q.explanation.isSome && q.answer_text.isSome && q.answer_index.isSome)) = true
        ∧ ((getSessionBody sRace).answers.all (fun kv => kv.2.isFull)) = true
        ∧ (getSessionBody sRace).details
            = (if 0 < sRace.questions.length then some (sRace.questions.map (reviewFor sRace))
               else none)) :=
  C2_answer_visibility "u1" sRace rfl

/-- C3 (counterexample): `sTwoQ` has the correct answer to `q1` saved;
the submit supplies an answer only for `q2`.  Under the claim's
per-question priority the saved `q1` answer would still be graded (the
claim-merge map grades 2 correct), but the code ignores the saved set
wholesale once any answers are supplied: the chosen map contains no
`q1` binding and the stored score is 1. -/
theorem C3_counterexample :
    (submitSession "u1" (.obj [("q2", JVal.str "dog")]) 5 (some sTwoQ) sTwoQ false).stored.score = 1
    ∧ (gradeAll sTwoQ.questions
        (.byMap (claimMerge [("q2", JVal.str "dog")] sTwoQ.answers))).totalCorrect = 2
    ∧ ansLookup sTwoQ.answers "q1" = some (JVal.str "cat")
    ∧ objLookup (payloadAnswersMap (.obj [("q2", JVal.str "dog")])) "q1" = none := by
  refine ⟨?_, ?_, ?_, ?_⟩ <;> decide

/-- C3 (amended): when the supplied answer set is non-empty it is used
exclusively — the grading outcome is independent of whatever answers
were previously saved; the saved answers are graded only when no
answers are supplied at all, in which case the submit behaves exactly
as if the saved answer map had been supplied. -/
theorem C3_supplied_replaces_saved (uid : String) (payload : SubmitPayload) (now : ℚ)
    (s sW : Session) (f : Bool) (a1 a2 : List AnswerEntry) :
    (payloadNonempty payload = true →
        submitSession uid payload now (some { s with answers := a1 }) sW f
          = submitSession uid payload now (some { s with answers := a2 }) sW f)
    ∧ (payloadNonempty payload = false →
        submitSession uid payload now (some s) sW f
          = submitSession uid (.obj (savedAnswersMap s.answers)) now (some s) sW f) := by
  constructor
  · intro h
    simp [submitSession, h]
  · intro h
    by_cases hm : savedAnswersMap s.answers = []
    · have hser : payloadNonempty (.obj (savedAnswersMap s.answers)) = false := by
        rw [hm]
        rfl
      simp [submitSession, h, hser]
    · have hne : payloadNonempty (.obj (savedAnswersMap s.answers)) = true := by
        cases hc : savedAnswersMap s.answers with
        | nil => exact absurd hc hm
        | cons x xs => simp [payloadNonempty, hc]
      simp [submitSession, h, hne, payloadAnswersMap]

/-- Witness for C3 (amended): supplying an answer set makes the saved
answers irrelevant, and an empty supply grades the saved set. -/
theorem C3_witness :
    (submitSession "u1" (.obj [("q2", JVal.str "dog")]) 5
        (some { sTwoQ with answers := [{ qid := "q1", userAnswer := JVal.str "cat" }] }) sTwoQ false
      = submitSession "u1" (.obj [("q2", JVal.str "dog")]) 5
        (some { sTwoQ with answers := [] }) sTwoQ false)
    ∧ (submitSession "u1" (.obj []) 5 (some sTwoQ) sTwoQ false
      = submitSession "u1" (.obj (savedAnswersMap sTwoQ.answers)) 5 (some sTwoQ) sTwoQ false) :=
  ⟨(C3_supplied_replaces_saved "u1" (.obj [("q2", JVal.str "dog")]) 5 sTwoQ sTwoQ false
      [{ qid := "q1", userAnswer := JVal.str "cat" }] []).1 rfl,
   (C3_supplied_replaces_saved "u1" (.obj []) 5 sTwoQ sTwoQ false [] []).2 rfl⟩

/-- C5: SaveProgress by the owner of an in-progress attempt writes the
per-qid merge through the conditional in-progress-guarded update (a
guard failure returns Conflict and leaves the store unchanged), and the
merged answer set maps every qid to the last supplied payload value
when the payload carries the qid and to the previously saved value
otherwise. -/
theorem C5_save_merge (uid : String) (pl : List (String × JVal)) (s sW : Session) (key : String)
    (hOwn : s.user = uid) (hIn : s.status = .inProgress) :
    (saveSession uid (.obj pl) (some s) sW
        = if sW.status = .inProgress
          then { response := .ok (mergeAnswers s.answers pl).length,
                 stored := { sW with answers := mergeAnswers s.answers pl } }
          else { response := .err 409 "Session no longer in-progress", stored := sW })
    ∧ ansLookup (mergeAnswers s.answers pl) key
        = (match lastBy (fun p => p.1) (fun p => p.2) pl key with
           | some v => some v
           | none => lastBy (fun a => a.qid) (fun a => a.userAnswer) s.answers key) := by
  constructor
  · by_cases hW : sW.status = .inProgress <;> simp [saveSession, hOwn, hIn, hW]
  · simp only [mergeAnswers]
    rw [ansLookup_mapEntries]
    rw [objLookup_foldl (fun p : String × JVal => p.1)
      (fun p => ({ qid := p.1, userAnswer := p.2 } : AnswerEntry)) pl _ key]
    rw [objLookup_foldl (fun a : AnswerEntry => a.qid) (fun a => a) s.answers [] key]
    rw [← lastBy_map (fun p : String × JVal => p.1)
      (fun p => ({ qid := p.1, userAnswer := p.2 } : AnswerEntry)) (fun a => a.userAnswer) pl key]
    rw [← lastBy_map (fun a : AnswerEntry => a.qid) (fun a => a) (fun a => a.userAnswer)
      s.answers key]
    cases lastBy (fun p : String × JVal => p.1)
        (fun p => ({ qid := p.1, userAnswer := p.2 } : AnswerEntry)) pl key with
    | some e => simp
    | none =>
      cases lastBy (fun a : AnswerEntry => a.qid) (fun a => a) s.answers key with
      | some e => simp [objLookup]
      | none => simp [objLookup]

/-- Witness for C5 at a concrete in-progress attempt: the payload
overwrites `q1`, appends `q3`, and the untouched saved `q1`-free qids
keep their values. -/
theorem C5_witness :
    (saveSession "u1" (.obj plEx) (some sTwoQ) sTwoQ
        = if sTwoQ.status = .inProgress
          then { response := .ok (mergeAnswers sTwoQ.answers plEx).length,
                 stored := { sTwoQ with answers := mergeAnswers sTwoQ.answers plEx } }
          else { response := .err 409 "Session no longer in-progress", stored := sTwoQ })
    ∧ ansLookup (mergeAnswers sTwoQ.answers plEx) "q1"
        = (match lastBy (fun p => p.1) (fun p => p.2) plEx "q1" with
           | some v => some v
           | none => lastBy (fun a => a.qid) (fun a => a.userAnswer) sTwoQ.answers "q1") :=
  C5_save_merge "u1" plEx sTwoQ sTwoQ "q1" rfl rfl

set_option maxHeartbeats 1600000 in
/-- C7 (counterexample): on expected text `"dog!"` with user answer
`"dog!"`, the claim's strategy 1 — both sides sanitized to their first
whitespace-delimited lowercase token — declares the answer correct
(identical tokens), but the code's expected-side sanitization also
strips punctuation, so the exact strategy misses, the numeric strategy
fails, and the fuzzy similarity is 3/4 < 0.8: the code grades it
incorrect. -/
theorem C7_counterexample :
    claimGradeShort "dog!" "dog!" = true
    ∧ (gradeQuestion qDogBang (JVal.str "dog!")).isCorrect = false
    ∧ (gradeQuestion qDogBang (JVal.str "dog!")).similarity = some (3 / 4) := by
  refine ⟨?_, ?_, ?_⟩ <;> decide

/-- C7 (amended): for every `short` question the grader runs three
strategies in order with first success winning — (1) exact equality of
the user's first whitespace-delimited lowercase token against the
expected text normalized (lowercased, punctuation other than
apostrophes/hyphens stripped) and cut to its first token, (2) numeric
equivalence parsing the raw expected text and the sanitized user token
(digit forms or composable English number words, unrecognized tokens
aborting to not-a-number), both parsing and differing by less than
`1e-9`, (3) fuzzy match with `1 − editDistance/maxLen ≥ 0.8` over the
two sanitized tokens, the similarity being reported exactly in the
fuzzy case. -/
theorem C7_short_strategies (q : Question) (ua : JVal) (h : q.type = "short") :
    (gradeQuestion q ua).isCorrect
        = (shortExact q ua || (shortNumeric q ua || decide (shortSimilarity q ua ≥ 4 / 5)))
    ∧ (gradeQuestion q ua).numericMatch = (!shortExact q ua && shortNumeric q ua)
    ∧ (gradeQuestion q ua).similarity
        = (if (shortExact q ua || shortNumeric q ua) = true then none
           else some (shortSimilarity q ua))
    ∧ (gradeQuestion q ua).expected = q.answer_text := by
  have hg : gradeQuestion q ua = gradeShort q ua := by
    rw [gradeQuestion, h]
    rw [if_neg (by decide), if_neg (by decide)]
  rw [hg]
  have hsim : shortSimilarity q ua
      = similarity (shortExpectedToken (jsStrOrEmpty q.answer_text))
          (sanitizeUserShortAnswer ua) := rfl
  by_cases hx : shortExpectedToken (jsStrOrEmpty q.answer_text) ≠ ""
      ∧ sanitizeUserShortAnswer ua = shortExpectedToken (jsStrOrEmpty q.answer_text)
  · have hxe : shortExact q ua = true := by simp [shortExact, hx]
    simp [gradeShort, hx, hxe]
  · have hxe : shortExact q ua = false := by simp [shortExact, hx]
    by_cases hn : shortNumeric q ua = true
    · have hn2 := hn
      rw [shortNumeric] at hn2
      simp only [gradeShort, if_neg hx, hn2]
      simp [hxe, hn]
    · have hn2 : (match parseMaybeNumber (.str (jsStrOrEmpty q.answer_text)),
            parseMaybeNumber (.str (sanitizeUserShortAnswer ua)) with
          | some e, some u => decide (|e - u| < (1 : ℚ) / 1000000000)
          | _, _ => false) = false := by
        rw [← shortNumeric]
        exact Bool.eq_false_iff.mpr hn
      simp only [gradeShort, if_neg hx, hn2]
      simp [hxe, Bool.eq_false_iff.mpr hn, hsim]

/-- Witness for C7 (amended): a concrete short question graded through
the fuzzy strategy. -/
theorem C7_witness :
    (gradeQuestion qShortCat (JVal.str "kat")).isCorrect
        = (shortExact qShortCat (JVal.str "kat")
            || (shortNumeric qShortCat (JVal.str "kat")
                || decide (shortSimilarity qShortCat (JVal.str "kat") ≥ 4 / 5)))
    ∧ (gradeQuestion qShortCat (JVal.str "kat")).numericMatch
        = (!shortExact qShortCat (JVal.str "kat") && shortNumeric qShortCat (JVal.str "kat"))
    ∧ (gradeQuestion qShortCat (JVal.str "kat")).similarity
        = (if (shortExact qShortCat (JVal.str "kat")
              || shortNumeric qShortCat (JVal.str "kat")) = true then none
           else some (shortSimilarity qShortCat (JVal.str "kat")))
    ∧ (gradeQuestion qShortCat (JVal.str "kat")).expected = qShortCat.answer_text :=
  C7_short_strategies qShortCat (JVal.str "kat") rfl

/-- Grading an absent (`undefined`) user answer is incorrect whenever
the question's expected answer survives its grader's normalization as a
non-empty key (always for `mcq`). -/
theorem gradeQuestion_undef_incorrect (q : Question) (hq : expectedNonempty q = true) :
    (gradeQuestion q .undefinedV).isCorrect = false := by
  by_cases h1 : q.type = "mcq"
  · simp [gradeQuestion, h1, gradeMcq, toNumber]
  · by_cases h2 : q.type = "tf"
    · have hexp : normalizeTextStr (jsStrOrEmpty q.answer_text) ≠ "" := by
        simpa [expectedNonempty, h1, h2] using hq
      have hgr : gradeQuestion q JVal.undefinedV = gradeTf q JVal.undefinedV := by
        simp [gradeQuestion, h1, h2]
      rw [hgr]
      simp only [gradeTf, normalizeText,
        (by decide : truthyWords.contains "" = false),
        (by decide : falsyWords.contains "" = false)]
      split <;> simp_all
    · have hexp : shortExpectedToken (jsStrOrEmpty q.answer_text) ≠ "" := by
        simpa [expectedNonempty, h1, h2] using hq
      have hgr : gradeQuestion q JVal.undefinedV = gradeShort q JVal.undefinedV := by
        simp [gradeQuestion, h1, h2]
      rw [hgr]
      have hua : sanitizeUserShortAnswer JVal.undefinedV = "" := rfl
      have hcond : ¬ (shortExpectedToken (jsStrOrEmpty q.answer_text) ≠ ""
          ∧ sanitizeUserShortAnswer JVal.undefinedV = shortExpectedToken (jsStrOrEmpty q.answer_text)) := by
        rintro ⟨hne, heq⟩
        exact hne (by rw [← heq, hua])
      have hnum : parseMaybeNumber (.str (sanitizeUserShortAnswer JVal.undefinedV)) = none := by decide
      simp only [gradeShort, if_neg hcond, hnum]
      have hzero : similarity (shortExpectedToken (jsStrOrEmpty q.answer_text))
          (sanitizeUserShortAnswer JVal.undefinedV) = 0 := by
        rw [hua]
        exact similarity_empty_right hexp
      cases hEN : parseMaybeNumber (.str (jsStrOrEmpty q.answer_text)) with
      | none => simp [hzero, (by decide : ¬ ((0 : ℚ) ≥ 4 / 5))]
      | some e => simp [hzero, (by decide : ¬ ((0 : ℚ) ≥ 4 / 5))]

/-- C9 (counterexample): on a short question whose snapshot has no
expected answer text, `gradeAll` grades the MISSING user answer as
correct (empty expected token, empty sanitized answer, similarity 1),
refuting "a missing answer is always incorrect". -/
theorem C9_counterexample :
    (gradeAll [qShortNoAnswer] (.byMap [])).totalCorrect = 1
    ∧ lookupAnswer (.byMap []) 0 (effQid qShortNoAnswer 0) = .undefinedV
    ∧ (gradeAll [qShortNoAnswer] (.byMap [])).details.map (fun d => d.isCorrect) = [true] := by
  refine ⟨?_, ?_, ?_⟩ <;> decide

/-- C9 (amended): `gradeAll` iterates the question snapshot in snapshot
order, producing the detail for position `i` from the question at
position `i` by looking its user answer up by qid; `totalCorrect` is
the count of correct verdicts; a missing answer is recorded as a `null`
user answer and grades incorrect whenever the question's expected
answer survives normalization as a non-empty key (always for `mcq`; a
`tf`/`short` question whose expected text normalizes to empty grades a
missing answer correct, see the counterexample). -/
theorem C9_gradeAll_order (questions : List Question) (amap : List (String × JVal))
    (i : ℕ) (q : Question) (hq : questions.get? i = some q) :
    (gradeAll questions (.byMap amap)).details.length = questions.length
    ∧ (gradeAll questions (.byMap amap)).details.get? i = some (detailFor q i (.byMap amap))
    ∧ (gradeAll questions (.byMap amap)).totalCorrect
        = ((gradeAll questions (.byMap amap)).details.filter (fun d => d.isCorrect)).length
    ∧ (objLookup amap (effQid q i) = none →
        (detailFor q i (.byMap amap)).userAnswer = .null
        ∧ (detailFor q i (.byMap amap)).qid = effQid q i
        ∧ (expectedNonempty q = true → (detailFor q i (.byMap amap)).isCorrect = false)) := by
  refine ⟨?_, ?_, rfl, ?_⟩
  · simp [gradeAll, List.enum_length]
  · simp [gradeAll, List.getElem?_map, List.getElem?_enum]
    exact ⟨q, by rwa [← List.get?_eq_getElem?], rfl⟩
  · intro hmiss
    have hua : lookupAnswer (.byMap amap) i (effQid q i) = .undefinedV := by
      simp [lookupAnswer, hmiss]
    refine ⟨?_, rfl, ?_⟩
    · simp [detailFor, hua]
    · intro hne
      simp [detailFor, hua, gradeQuestion_undef_incorrect q hne]

/-- Witness for C9 (amended) at a concrete one-question snapshot with
no saved answers. -/
theorem C9_witness :
    (gradeAll [qShortCat] (.byMap [])).details.length = [qShortCat].length
    ∧ (gradeAll [qShortCat] (.byMap [])).details.get? 0
        = some (detailFor qShortCat 0 (.byMap []))
    ∧ (gradeAll [qShortCat] (.byMap [])).totalCorrect
        = ((gradeAll [qShortCat] (.byMap [])).details.filter (fun d => d.isCorrect)).length
    ∧ (objLookup ([] : List (String × JVal)) (effQid qShortCat 0) = none →
        (detailFor qShortCat 0 (.byMap [])).userAnswer = .null
        ∧ (detailFor qShortCat 0 (.byMap [])).qid = effQid qShortCat 0
        ∧ (expectedNonempty qShortCat = true →
            (detailFor qShortCat 0 (.byMap [])).isCorrect = false)) :=
  C9_gradeAll_order [qShortCat] [] 0 qShortCat rfl

end QuizServer
